import Mathlib

/-!
Verification of the Quiz Engine + Frontend RPC Bridge of the agent platform
(src/src/tools/quiz_tools.py), shallowly embedded in Lean 4.

Conventions of the embedding:
* Python exceptions are modelled with `Except PyExc`; a statement that can
  raise returns `.error e`, a `try/except` block is a `match` on the body.
* `asyncio.wait_for(perform_rpc(...))` followed by `json.loads(result)` is
  modelled by `rpc_exchange`, driven by an `Env` describing the environment:
  whether a room context and a remote participant exist, and how the single
  RPC exchange behaves (decoded reply, timeout, transport failure, or a
  response body that `json.loads` cannot decode).
* `uuid.uuid4()` values are opaque fresh strings supplied by `Env`
  (`fresh_quiz_id`, `fresh_timestamp`); for the per-question ids produced
  inside `_generate_quiz_questions` fixed placeholder strings are used, as
  no behaviour in scope depends on their values.
* `int(quiz.score / len(quiz.questions) * 100)` (Python float division then
  truncation) is modelled by `py_percentage`, i.e. `score * 100 / total` in
  truncating natural division, raising ZeroDivisionError when `total = 0`.
  For every `0 ≤ score ≤ total ≤ 10` the float computation and the integer
  floor agree exactly, so the embedding is faithful on the whole range the
  code can produce (question lists are clamped to length ≤ 10).
-/

/-- A Python exception: `asyncio.TimeoutError` is distinguished because
`create_quiz` has a dedicated handler for it; every other raised exception
(transport failures from `perform_rpc`, `json.loads` decode errors,
IndexError, ZeroDivisionError) carries its message. -/
inductive PyExc where
  | timeoutError
  | exc (msg : String)
deriving Repr, DecidableEq

/-- Behaviour of the single RPC exchange a tool call performs. -/
inductive RpcBehavior where
  /-- `perform_rpc` returned and `json.loads` decoded an object; `response_ok`
  is the truthiness of `response.get("ok")`, `error_field` the value of
  `response.get("error")` when present. -/
  | reply (response_ok : Bool) (error_field : Option String)
  /-- `asyncio.wait_for` expired: `asyncio.TimeoutError` is raised. -/
  | timeout
  /-- `perform_rpc` raised a transport-level exception. -/
  | transportFail (msg : String)
  /-- `perform_rpc` returned but `json.loads` raised on the body. -/
  | badJson (msg : String)
deriving Repr, DecidableEq

/-- The per-call environment: session context / room presence
(`userdata.ctx` and `userdata.ctx.room`), the remote participant map being
non-empty, the behaviour of the RPC exchange, and the opaque `uuid.uuid4()`
draws used by `create_quiz`. -/
structure Env where
  has_room : Bool
  has_participant : Bool
  rpc : RpcBehavior
  fresh_quiz_id : String
  fresh_timestamp : String
deriving Repr, DecidableEq

/-- Modelled from the spec: the `QuizQuestion` model (its class is imported
from `src.models` by quiz_tools.py but absent from src/); fields follow
spec §3 and every constructor call in `_generate_quiz_questions`:
question text, lettered options, correct-answer letter, optional
explanation, and the initially-absent `user_answer` / `is_correct` set when
the student submits or skips. -/
structure QuizQuestion where
  id : String
  question_text : String
  options : List String
  correct_answer : String
  explanation : Option String := none
  user_answer : Option String := none
  is_correct : Option Bool := none
deriving Repr, DecidableEq

/-- Modelled from the spec: the `Quiz` model (absent from src/); fields
follow spec §3 and the constructor call in `create_quiz`. -/
structure Quiz where
  id : String
  topic : String
  difficulty : String
  questions : List QuizQuestion
  current_question_index : Nat
  score : Nat
  completed : Bool
deriving Repr, DecidableEq

/-- One entry of `userdata.quiz_history`: the dict appended by `create_quiz`
(`id`, `topic`, `difficulty`, `status`, `created_at`) extended in place by
`_complete_quiz` with `score` and `percentage`. -/
structure HistoryRecord where
  id : String
  topic : String
  difficulty : String
  status : String
  created_at : String
  score : Option String := none
  percentage : Option Nat := none
deriving Repr, DecidableEq

/-- Modelled from the spec: the quiz-related fields of `UserData`
(`current_quiz`, nullable, and the append-only `quiz_history`), read and
written by every quiz tool; the `UserData` class in src/models.py lacks
them, so they are reconstructed from spec §3. -/
structure UserData where
  current_quiz : Option Quiz := none
  quiz_history : List HistoryRecord := []
deriving Repr, DecidableEq

/-- Python list indexing `xs[i]`: raises `IndexError` out of range. -/
def py_get (xs : List α) (i : Nat) : Except PyExc α :=
  match xs.get? i with
  | some x => .ok x
  | none => .error (.exc "IndexError")

/-- Python `str.upper()`: per-character ASCII case mapping (written via
`List.map` so that terms over string literals reduce definitionally). -/
def py_upper (s : String) : String := ⟨s.data.map Char.toUpper⟩

/-- Python `str.lower()`: per-character ASCII case mapping. -/
def py_lower (s : String) : String := ⟨s.data.map Char.toLower⟩

/-- `int(score / total * 100)`: ZeroDivisionError when `total = 0`,
otherwise truncating division (which agrees with the Python float
computation everywhere on `score ≤ total ≤ 10`, see the header comment). -/
def py_percentage (score total : Nat) : Except PyExc Nat :=
  if total = 0 then .error (.exc "ZeroDivisionError")
  else .ok (score * 100 / total)

/-- The `await asyncio.wait_for(perform_rpc(...)); json.loads(result)`
sequence: yields the decoded reply or raises. -/
def rpc_exchange (env : Env) : Except PyExc (Bool × Option String) :=
  match env.rpc with
  | .reply ok err => .ok (ok, err)
  | .timeout => .error .timeoutError
  | .transportFail m => .error (.exc m)
  | .badJson m => .error (.exc m)

/-- The algebra entry of the sample question bank (question ids are opaque
uuid4 draws in the source, placeholders here). -/
def algebra_questions : List QuizQuestion :=
  [{ id := "alg-q1",
     question_text := "What is 2x + 5 = 15? Solve for x.",
     options := ["A) x = 5", "B) x = 10", "C) x = 7", "D) x = 3"],
     correct_answer := "A",
     explanation := some "Subtract 5 from both sides: 2x = 10, then divide by 2: x = 5" },
   { id := "alg-q2",
     question_text := "Simplify: 3(x + 2) - 2x",
     options := ["A) x + 6", "B) 5x + 6", "C) x + 2", "D) 3x + 6"],
     correct_answer := "A",
     explanation := some "3(x + 2) - 2x = 3x + 6 - 2x = x + 6" }]

/-- The geometry entry of the sample question bank. -/
def geometry_questions : List QuizQuestion :=
  [{ id := "geo-q1",
     question_text := "What is the area of a rectangle with length 8 and width 5?",
     options := ["A) 13", "B) 40", "C) 26", "D) 32"],
     correct_answer := "B",
     explanation := some "Area = length × width = 8 × 5 = 40" }]

/-- The fractions entry of the sample question bank. -/
def fractions_questions : List QuizQuestion :=
  [{ id := "fra-q1",
     question_text := "What is 1/2 + 1/4?",
     options := ["A) 2/6", "B) 3/4", "C) 1/6", "D) 2/4"],
     correct_answer := "B",
     explanation := some "1/2 + 1/4 = 2/4 + 1/4 = 3/4" }]

/-- The fixed sample question bank of `_generate_quiz_questions`. -/
def sample_questions : List (String × List QuizQuestion) :=
  [("algebra", algebra_questions),
   ("geometry", geometry_questions),
   ("fractions", fractions_questions)]

/-- `sample_questions.get(topic.lower(), sample_questions["algebra"])`. -/
def catalog_lookup (topic : String) : List QuizQuestion :=
  match (sample_questions.find? (fun p => p.1 = py_lower topic)) with
  | some p => p.2
  | none => (sample_questions.head!).2

def _generate_quiz_questions (topic : String) (num_questions : Nat)
    (_difficulty : String) : List QuizQuestion :=
  (catalog_lookup topic).take num_questions

/-- The `try` body of `_show_next_question`: builds the `next_question`
payload (indexing `quiz.questions`) and performs the RPC. -/
def show_next_attempt (env : Env) (quiz : Quiz) :
    Except PyExc (Bool × Option String) :=
  match py_get quiz.questions quiz.current_question_index with
  | .error e => .error e
  | .ok _ => rpc_exchange env

/-- `_show_next_question`: room/participant guards, then the `try` body
above; every raised exception is caught by the final `except Exception`. -/
def _show_next_question (env : Env) (d : UserData) (quiz : Quiz) :
    Except PyExc (String × UserData) :=
  if !env.has_room then .ok ("Moving to next question, but couldn't display it", d)
  else if !env.has_participant then .ok ("No participants", d)
  else
    match show_next_attempt env quiz with
    | .ok (ok, _) =>
        if ok then
          .ok ("Moving to question " ++ toString (quiz.current_question_index + 1) ++ ".", d)
        else
          .ok ("Next question ready (Question " ++ toString (quiz.current_question_index + 1) ++ ")", d)
    | .error _ => .ok ("Moving to next question", d)

/-- The in-place update `_complete_quiz` applies to each history record:
records whose id matches the completed quiz get status `"completed"`, the
score summary string and the percentage; others are left untouched. -/
def complete_record (quiz : Quiz) (percentage : Nat) (h : HistoryRecord) :
    HistoryRecord :=
  if h.id = quiz.id then
    { h with status := "completed",
             score := some (toString quiz.score ++ "/" ++ toString quiz.questions.length),
             percentage := some percentage }
  else h

/-- `_complete_quiz`: computes the percentage (outside any `try`, so a
ZeroDivisionError would propagate), updates every history record whose id
matches in place, then guards and a `try` around the `complete_quiz` RPC
whose `except Exception` catches every raised exception (including
`asyncio.TimeoutError`). -/
def _complete_quiz (env : Env) (d : UserData) (quiz : Quiz) :
    Except PyExc (String × UserData) :=
  match py_percentage quiz.score quiz.questions.length with
  | .error e => .error e
  | .ok percentage =>
    let score_str := toString quiz.score ++ "/" ++ toString quiz.questions.length
    let d : UserData :=
      { d with quiz_history := d.quiz_history.map (complete_record quiz percentage) }
    if !env.has_room then
      .ok ("Quiz completed! Final score: " ++ score_str ++ " (" ++ toString percentage ++ "%)", d)
    else if !env.has_participant then
      .ok ("Quiz completed! Score: " ++ score_str, d)
    else
      match rpc_exchange env with
      | .ok (ok, _) =>
          if ok then
            .ok ("Quiz completed! You scored " ++ score_str ++ " (" ++ toString percentage ++ "%). Great job!", d)
          else
            .ok ("Quiz completed! Score: " ++ score_str ++ " (" ++ toString percentage ++ "%)", d)
      | .error _ =>
          .ok ("Quiz completed! Final score: " ++ score_str ++ " (" ++ toString percentage ++ "%)", d)

/-- `difficulty.lower() if difficulty.lower() in ["easy", "medium", "hard"]
else "medium"`. -/
def norm_difficulty (difficulty : String) : String :=
  if py_lower difficulty = "easy" ∨ py_lower difficulty = "medium"
     ∨ py_lower difficulty = "hard"
  then py_lower difficulty else "medium"

/-- The `try` body of `create_quiz`: builds the `start_quiz` payload
(indexing `questions[0]`) and performs the RPC. -/
def create_quiz_attempt (env : Env) (questions : List QuizQuestion) :
    Except PyExc (Bool × Option String) :=
  match py_get questions 0 with
  | .error e => .error e
  | .ok _ => rpc_exchange env

/-- `create_quiz`: clamps `num_questions` to [1, 10], normalises
`difficulty`, generates questions, installs the new quiz as
`current_quiz`, appends one `in_progress` history record, then guards and a
`try` around the `start_quiz` RPC with separate handlers for
`asyncio.TimeoutError` and `Exception`. -/
def create_quiz (env : Env) (d : UserData) (topic : String)
    (num_questions : Int) (difficulty : String) :
    Except PyExc (String × UserData) :=
  let nq : Int := max 1 (min 10 num_questions)
  let diff := norm_difficulty difficulty
  let questions := _generate_quiz_questions topic nq.toNat diff
  let quiz : Quiz :=
    { id := env.fresh_quiz_id, topic := topic, difficulty := diff,
      questions := questions, current_question_index := 0, score := 0,
      completed := false }
  let d : UserData :=
    { current_quiz := some quiz,
      quiz_history := d.quiz_history ++
        [{ id := quiz.id, topic := topic, difficulty := diff,
           status := "in_progress", created_at := env.fresh_timestamp }] }
  if !env.has_room then
    .ok ("Created a " ++ toString nq ++ "-question quiz on " ++ topic ++ ", but couldn't display it", d)
  else if !env.has_participant then
    .ok ("Quiz created, but no participants found to send it to", d)
  else
    match create_quiz_attempt env questions with
    | .ok (ok, err) =>
        if ok then
          .ok ("I've created a " ++ diff ++ " " ++ topic ++ " quiz with " ++ toString nq ++ " questions. Let's start with question 1!", d)
        else
          .ok ("Created quiz but couldn't display it: " ++ err.getD "Unknown error", d)
    | .error .timeoutError =>
        .ok ("Quiz created but the display timed out. Please try again.", d)
    | .error (.exc m) =>
        .ok ("Created quiz but encountered an error displaying it: " ++ m, d)

/-- `submit_answer`: `NoActiveQuiz` / `AlreadyCompleted` guards, then reads
the current question (a bare indexing, outside any `try`), compares the
uppercased answer with the uppercased correct letter, updates score and the
question's answer fields, advances the index, and either completes the quiz
or shows the next question. -/
def submit_answer (env : Env) (d : UserData) (answer : String) :
    Except PyExc (String × UserData) :=
  match d.current_quiz with
  | none => .ok ("There's no active quiz. Create a quiz first using create_quiz.", d)
  | some quiz =>
    if quiz.completed then
      .ok ("This quiz is already completed. Your score was " ++ toString quiz.score ++ "/" ++ toString quiz.questions.length ++ ".", d)
    else
      match py_get quiz.questions quiz.current_question_index with
      | .error e => .error e
      | .ok current_question =>
        let is_correct := py_upper answer = py_upper current_question.correct_answer
        let score := if is_correct then quiz.score + 1 else quiz.score
        let cq := { current_question with
                      user_answer := some (py_upper answer),
                      is_correct := some is_correct }
        let questions := quiz.questions.set quiz.current_question_index cq
        let idx := quiz.current_question_index + 1
        if idx ≥ questions.length then
          let quiz := { quiz with questions := questions, score := score,
                                  current_question_index := idx, completed := true }
          let d := { d with current_quiz := some quiz }
          _complete_quiz env d quiz
        else
          let quiz := { quiz with questions := questions, score := score,
                                  current_question_index := idx }
          let d := { d with current_quiz := some quiz }
          _show_next_question env d quiz

/-- `skip_question`: like `submit_answer` with forced `"SKIPPED"` answer,
forced incorrect marking and no score change; its `AlreadyCompleted` branch
returns the fixed string "Quiz is already completed.". -/
def skip_question (env : Env) (d : UserData) :
    Except PyExc (String × UserData) :=
  match d.current_quiz with
  | none => .ok ("There's no active quiz.", d)
  | some quiz =>
    if quiz.completed then
      .ok ("Quiz is already completed.", d)
    else
      match py_get quiz.questions quiz.current_question_index with
      | .error e => .error e
      | .ok current_question =>
        let cq := { current_question with
                      user_answer := some "SKIPPED",
                      is_correct := some false }
        let questions := quiz.questions.set quiz.current_question_index cq
        let idx := quiz.current_question_index + 1
        if idx ≥ questions.length then
          let quiz := { quiz with questions := questions,
                                  current_question_index := idx, completed := true }
          let d := { d with current_quiz := some quiz }
          _complete_quiz env d quiz
        else
          let quiz := { quiz with questions := questions,
                                  current_question_index := idx }
          let d := { d with current_quiz := some quiz }
          _show_next_question env d quiz

/-- `get_quiz_status`: read-only; reports the last history record when no
quiz is active, the final score and percentage when completed (the
percentage division is outside any `try`), or the 1-based position. -/
def get_quiz_status (_env : Env) (d : UserData) :
    Except PyExc (String × UserData) :=
  match d.current_quiz with
  | none =>
    match d.quiz_history.getLast? with
    | some last_quiz =>
        .ok ("No active quiz. Last quiz was on " ++ last_quiz.topic ++ " (" ++ last_quiz.status ++ ").", d)
    | none => .ok ("No quiz has been created yet. Use create_quiz to start one.", d)
  | some quiz =>
    if quiz.completed then
      match py_percentage quiz.score quiz.questions.length with
      | .error e => .error e
      | .ok percentage =>
        .ok ("Quiz completed! Final score: " ++ toString quiz.score ++ "/" ++ toString quiz.questions.length ++ " (" ++ toString percentage ++ "%)", d)
    else
      .ok ("Currently on question " ++ toString (quiz.current_question_index + 1) ++ " of " ++ toString quiz.questions.length ++ ". Score so far: " ++ toString quiz.score ++ "/" ++ toString quiz.current_question_index ++ " answered correctly.", d)

/-- The `try` body of `show_quiz_results`: builds the results payload
(computing the percentage with float division), performs the RPC, and on an
`ok` reply recomputes the percentage for the spoken reply. -/
def show_quiz_results_attempt (env : Env) (quiz : Quiz) :
    Except PyExc String :=
  match py_percentage quiz.score quiz.questions.length with
  | .error e => .error e
  | .ok _ =>
    match rpc_exchange env with
    | .error e => .error e
    | .ok (ok, _) =>
      if ok then
        match py_percentage quiz.score quiz.questions.length with
        | .error e => .error e
        | .ok p =>
          .ok ("Here are your detailed results: " ++ toString quiz.score ++ "/" ++ toString quiz.questions.length ++ " correct (" ++ toString p ++ "%)")
      else
        .ok ("Results: " ++ toString quiz.score ++ "/" ++ toString quiz.questions.length)

/-- `show_quiz_results`: `NoActiveQuiz` / `QuizNotCompleted` / room /
participant guards, then the `try` body above; its `except Exception`
catches every raised exception. -/
def show_quiz_results (env : Env) (d : UserData) :
    Except PyExc (String × UserData) :=
  match d.current_quiz with
  | none => .ok ("No quiz to show results for.", d)
  | some quiz =>
    if !quiz.completed then
      .ok ("Quiz is not completed yet. Finish the quiz first.", d)
    else if !env.has_room then
      .ok ("Quiz completed but couldn't display results", d)
    else if !env.has_participant then
      .ok ("No participants to send results to", d)
    else
      match show_quiz_results_attempt env quiz with
      | .ok s => .ok (s, d)
      | .error _ =>
          .ok ("Quiz completed with score " ++ toString quiz.score ++ "/" ++ toString quiz.questions.length, d)

/-! ## Derived descriptions of the state effects, and well-formedness -/

/-- The quiz invariant of spec §3 (`0 ≤ current_question_index` holds by
the `Nat` type): index bounded by the question count, completion exactly at
the end, and a non-empty question list (enforced at creation). -/
def Quiz.wf (q : Quiz) : Prop :=
  q.current_question_index ≤ q.questions.length ∧
  (q.completed = true ↔ q.current_question_index = q.questions.length) ∧
  1 ≤ q.questions.length

instance (q : Quiz) : Decidable q.wf := by unfold Quiz.wf; infer_instance

/-- Session-state well-formedness: the active quiz, when present, is
well-formed. -/
def UserData.wf (d : UserData) : Prop :=
  ∀ q, d.current_quiz = some q → q.wf

instance (d : UserData) : Decidable d.wf := by
  unfold UserData.wf
  rcases h : d.current_quiz with _ | q
  · exact .isTrue (fun q' hq' => nomatch hq')
  · rcases inferInstanceAs (Decidable q.wf) with hw | hw
    · exact .isFalse (fun hall => hw (hall q rfl))
    · exact .isTrue (fun q' hq' => by cases hq'; exact hw)

/-- The quiz produced by `create_quiz` before any display attempt. -/
def created_quiz (env : Env) (topic : String) (num_questions : Int)
    (difficulty : String) : Quiz :=
  { id := env.fresh_quiz_id, topic := topic,
    difficulty := norm_difficulty difficulty,
    questions := _generate_quiz_questions topic
      (max 1 (min 10 num_questions)).toNat (norm_difficulty difficulty),
    current_question_index := 0, score := 0, completed := false }

/-- The history record appended by `create_quiz`. -/
def created_record (env : Env) (topic : String) (difficulty : String) :
    HistoryRecord :=
  { id := env.fresh_quiz_id, topic := topic,
    difficulty := norm_difficulty difficulty,
    status := "in_progress", created_at := env.fresh_timestamp }

/-- The session state after `create_quiz` returns. -/
def create_post (env : Env) (d : UserData) (topic : String)
    (num_questions : Int) (difficulty : String) : UserData :=
  { current_quiz := some (created_quiz env topic num_questions difficulty),
    quiz_history := d.quiz_history ++ [created_record env topic difficulty] }

/-- The history rewrite `_complete_quiz` performs on the session state. -/
def complete_post (d : UserData) (q : Quiz) : UserData :=
  { d with quiz_history :=
      d.quiz_history.map (complete_record q (q.score * 100 / q.questions.length)) }

/-- The quiz after `submit_answer` processes current question `cq` with
answer `ans`. -/
def submit_transition (q : Quiz) (cq : QuizQuestion) (ans : String) : Quiz :=
  let ic := py_upper ans = py_upper cq.correct_answer
  let questions := q.questions.set q.current_question_index
    { cq with user_answer := some (py_upper ans), is_correct := some ic }
  if q.current_question_index + 1 ≥ questions.length then
    { q with questions := questions,
             score := if ic then q.score + 1 else q.score,
             current_question_index := q.current_question_index + 1,
             completed := true }
  else
    { q with questions := questions,
             score := if ic then q.score + 1 else q.score,
             current_question_index := q.current_question_index + 1 }

/-- The session state after `submit_answer` processes current question
`cq` with answer `ans`. -/
def submit_post (d : UserData) (q : Quiz) (cq : QuizQuestion) (ans : String) :
    UserData :=
  let q2 := submit_transition q cq ans
  if q2.completed then complete_post { d with current_quiz := some q2 } q2
  else { d with current_quiz := some q2 }

/-- The quiz after `skip_question` processes current question `cq`. -/
def skip_transition (q : Quiz) (cq : QuizQuestion) : Quiz :=
  let questions := q.questions.set q.current_question_index
    { cq with user_answer := some "SKIPPED", is_correct := some false }
  if q.current_question_index + 1 ≥ questions.length then
    { q with questions := questions,
             current_question_index := q.current_question_index + 1,
             completed := true }
  else
    { q with questions := questions,
             current_question_index := q.current_question_index + 1 }

/-- The session state after `skip_question` processes current question
`cq`. -/
def skip_post (d : UserData) (q : Quiz) (cq : QuizQuestion) : UserData :=
  let q2 := skip_transition q cq
  if q2.completed then complete_post { d with current_quiz := some q2 } q2
  else { d with current_quiz := some q2 }

/-- One submit-or-skip transition of the tool surface, on any environment. -/
inductive Step : UserData → UserData → Prop where
  | submit (env : Env) (d : UserData) (answer s : String) (d' : UserData) :
      submit_answer env d answer = .ok (s, d') → Step d d'
  | skip (env : Env) (d : UserData) (s : String) (d' : UserData) :
      skip_question env d = .ok (s, d') → Step d d'

/-- The session states reachable from some `create_quiz` call by any
sequence of `submit_answer` / `skip_question` calls. -/
inductive QuizReachable : UserData → Prop where
  | created (env : Env) (d : UserData) (topic : String) (n : Int)
      (difficulty s : String) (d' : UserData) :
      create_quiz env d topic n difficulty = .ok (s, d') → QuizReachable d'
  | stepped (d d' : UserData) :
      QuizReachable d → Step d d' → QuizReachable d'

/-! ## Concrete fixtures used by witnesses and counterexamples -/

/-- An environment with no room context. -/
def env_no_room : Env :=
  { has_room := false, has_participant := false, rpc := .reply true none,
    fresh_quiz_id := "quiz-1", fresh_timestamp := "ts-1" }

/-- An environment whose single RPC exchange succeeds with `ok: true`. -/
def env_ok : Env :=
  { has_room := true, has_participant := true, rpc := .reply true none,
    fresh_quiz_id := "quiz-1", fresh_timestamp := "ts-1" }

/-- An environment whose single RPC exchange times out. -/
def env_timeout : Env :=
  { has_room := true, has_participant := true, rpc := .timeout,
    fresh_quiz_id := "quiz-1", fresh_timestamp := "ts-1" }

/-- An environment whose single RPC reply is not decodable JSON. -/
def env_bad_json : Env :=
  { has_room := true, has_participant := true, rpc := .badJson "Expecting value",
    fresh_quiz_id := "quiz-1", fresh_timestamp := "ts-1" }

def d_empty : UserData := {}

/-- A fresh one-question fractions quiz (the spec §8 scenario quiz). -/
def q_fractions : Quiz :=
  { id := "quiz-1", topic := "fractions", difficulty := "easy",
    questions := fractions_questions,
    current_question_index := 0, score := 0, completed := false }

def d_fractions : UserData :=
  { current_quiz := some q_fractions,
    quiz_history := [created_record env_no_room "fractions" "easy"] }

/-- A completed one-question quiz with score 1. -/
def q_done : Quiz :=
  { id := "quiz-1", topic := "fractions", difficulty := "easy",
    questions := fractions_questions,
    current_question_index := 1, score := 1, completed := true }

def d_done : UserData := { current_quiz := some q_done, quiz_history := [] }

/-! ## Projections used to state claims about tool results -/

/-- The question count of the active quiz in a tool result. -/
def result_quiz_len (r : Except PyExc (String × UserData)) : Option Nat :=
  match r with
  | .ok (_, d) => d.current_quiz.map (fun q => q.questions.length)
  | .error _ => none

/-- The student-visible content of a question: text, options, correct
letter. -/
def question_content (q : QuizQuestion) : String × List String × String :=
  (q.question_text, q.options, q.correct_answer)

/-- The content of the active quiz's question list in a tool result. -/
def result_quiz_content (r : Except PyExc (String × UserData)) :
    Option (List (String × List String × String)) :=
  match r with
  | .ok (_, d) => d.current_quiz.map (fun q => q.questions.map question_content)
  | .error _ => none

/-- A fresh two-question algebra quiz over the catalog's algebra set. -/
def q_alg : Quiz :=
  { id := "quiz-1", topic := "algebra", difficulty := "medium",
    questions := algebra_questions,
    current_question_index := 0, score := 0, completed := false }

def d_alg : UserData := { current_quiz := some q_alg, quiz_history := [] }

instance {ε α : Type} [DecidableEq ε] [DecidableEq α] :
    DecidableEq (Except ε α) := fun a b =>
  match a, b with
  | .ok x, .ok y =>
      if h : x = y then .isTrue (by rw [h])
      else .isFalse (by intro hc; cases hc; exact h rfl)
  | .error x, .error y =>
      if h : x = y then .isTrue (by rw [h])
      else .isFalse (by intro hc; cases hc; exact h rfl)
  | .ok _, .error _ => .isFalse (by intro hc; cases hc)
  | .error _, .ok _ => .isFalse (by intro hc; cases hc)


/-! ## Characterization lemmas -/

theorem show_next_ok (env : Env) (d : UserData) (q : Quiz) :
    ∃ s, _show_next_question env d q = .ok (s, d) := by
  unfold _show_next_question
  split
  · exact ⟨_, rfl⟩
  · split
    · exact ⟨_, rfl⟩
    · split
      · split
        · exact ⟨_, rfl⟩
        · exact ⟨_, rfl⟩
      · exact ⟨_, rfl⟩

theorem complete_quiz_ok (env : Env) (d : UserData) (q : Quiz)
    (h : q.questions.length ≠ 0) :
    ∃ s, _complete_quiz env d q = .ok (s, complete_post d q) := by
  unfold _complete_quiz py_percentage complete_post
  simp only [h, if_false, ite_false]
  split
  · exact ⟨_, rfl⟩
  · split
    · exact ⟨_, rfl⟩
    · split
      · split
        · exact ⟨_, rfl⟩
        · exact ⟨_, rfl⟩
      · exact ⟨_, rfl⟩

theorem catalog_lookup_ne_nil (topic : String) : catalog_lookup topic ≠ [] := by
  unfold catalog_lookup
  split
  · rename_i p hp
    have hmem := List.mem_of_find?_eq_some hp
    simp only [sample_questions, List.mem_cons, List.not_mem_nil, or_false] at hmem
    rcases hmem with h | h | h <;> subst h <;>
      simp [algebra_questions, geometry_questions, fractions_questions]
  · decide

theorem catalog_lookup_length_pos (topic : String) :
    1 ≤ (catalog_lookup topic).length :=
  List.length_pos.mpr (catalog_lookup_ne_nil topic)

theorem clamp_toNat_pos (n : Int) : 1 ≤ (max 1 (min 10 n)).toNat := by
  have h1 : (1 : Int) ≤ max 1 (min 10 n) := le_max_left _ _
  omega

theorem create_quiz_ok (env : Env) (d : UserData) (topic : String)
    (n : Int) (difficulty : String) :
    ∃ s, create_quiz env d topic n difficulty =
      .ok (s, create_post env d topic n difficulty) := by
  unfold create_quiz create_post created_quiz created_record create_quiz_attempt
  dsimp only
  split
  · exact ⟨_, rfl⟩
  · split
    · exact ⟨_, rfl⟩
    · split
      · split
        · exact ⟨_, rfl⟩
        · exact ⟨_, rfl⟩
      · exact ⟨_, rfl⟩
      · exact ⟨_, rfl⟩

theorem submit_answer_ok (env : Env) (d : UserData) (q : Quiz)
    (cq : QuizQuestion) (ans : String)
    (hq : d.current_quiz = some q) (hnc : q.completed = false)
    (hcq : q.questions.get? q.current_question_index = some cq) :
    ∃ s, submit_answer env d ans = .ok (s, submit_post d q cq ans) := by
  have hlt : q.current_question_index < q.questions.length := by
    by_contra hge
    rw [List.get?_eq_none.mpr (le_of_not_lt hge)] at hcq
    cases hcq
  unfold submit_answer py_get
  rw [hq]
  simp only [hnc, Bool.false_eq_true, if_false, hcq]
  unfold submit_post submit_transition
  simp only [List.length_set]
  by_cases hend : q.current_question_index + 1 ≥ q.questions.length
  · simp only [hend, if_true]
    exact complete_quiz_ok env _ _ (by simp only [List.length_set]; omega)
  · simp only [hend, if_false, hnc, Bool.false_eq_true]
    exact show_next_ok env _ _

theorem skip_question_ok (env : Env) (d : UserData) (q : Quiz)
    (cq : QuizQuestion)
    (hq : d.current_quiz = some q) (hnc : q.completed = false)
    (hcq : q.questions.get? q.current_question_index = some cq) :
    ∃ s, skip_question env d = .ok (s, skip_post d q cq) := by
  have hlt : q.current_question_index < q.questions.length := by
    by_contra hge
    rw [List.get?_eq_none.mpr (le_of_not_lt hge)] at hcq
    cases hcq
  unfold skip_question py_get
  rw [hq]
  simp only [hnc, Bool.false_eq_true, if_false, hcq]
  unfold skip_post skip_transition
  simp only [List.length_set]
  by_cases hend : q.current_question_index + 1 ≥ q.questions.length
  · simp only [hend, if_true]
    exact complete_quiz_ok env _ _ (by simp only [List.length_set]; omega)
  · simp only [hend, if_false, hnc, Bool.false_eq_true]
    exact show_next_ok env _ _

theorem submit_answer_no_quiz (env : Env) (d : UserData) (ans : String)
    (h : d.current_quiz = none) :
    submit_answer env d ans =
      .ok ("There's no active quiz. Create a quiz first using create_quiz.", d) := by
  unfold submit_answer
  rw [h]

theorem submit_answer_completed (env : Env) (d : UserData) (q : Quiz)
    (ans : String) (hq : d.current_quiz = some q) (hc : q.completed = true) :
    submit_answer env d ans =
      .ok ("This quiz is already completed. Your score was " ++ toString q.score ++ "/" ++ toString q.questions.length ++ ".", d) := by
  unfold submit_answer
  rw [hq]
  simp only [hc, if_true]

theorem skip_question_no_quiz (env : Env) (d : UserData)
    (h : d.current_quiz = none) :
    skip_question env d = .ok ("There's no active quiz.", d) := by
  unfold skip_question
  rw [h]

theorem skip_question_completed (env : Env) (d : UserData) (q : Quiz)
    (hq : d.current_quiz = some q) (hc : q.completed = true) :
    skip_question env d = .ok ("Quiz is already completed.", d) := by
  unfold skip_question
  rw [hq]
  simp only [hc, if_true]

theorem get_quiz_status_ok (env : Env) (d : UserData) (hwf : d.wf) :
    ∃ s, get_quiz_status env d = .ok (s, d) := by
  unfold get_quiz_status
  rcases hq : d.current_quiz with _ | q
  · rcases hl : d.quiz_history.getLast? with _ | last
    · exact ⟨_, rfl⟩
    · exact ⟨_, rfl⟩
  · rcases hc : q.completed with _ | _
    · simp only [hc, Bool.false_eq_true, if_false]
      exact ⟨_, rfl⟩
    · simp only [hc, if_true]
      have hlen : q.questions.length ≠ 0 := by
        have := (hwf q hq).2.2
        omega
      unfold py_percentage
      simp only [hlen, if_false]
      exact ⟨_, rfl⟩

theorem show_quiz_results_ok (env : Env) (d : UserData) :
    ∃ s, show_quiz_results env d = .ok (s, d) := by
  unfold show_quiz_results
  rcases d with ⟨cq, hist⟩
  rcases cq with _ | q
  · exact ⟨_, rfl⟩
  · dsimp only
    split
    · exact ⟨_, rfl⟩
    split
    · exact ⟨_, rfl⟩
    split
    · exact ⟨_, rfl⟩
    split
    · exact ⟨_, rfl⟩
    · exact ⟨_, rfl⟩

theorem create_quiz_total (env : Env) (d : UserData) (topic : String)
    (n : Int) (difficulty : String) :
    ∃ s d', create_quiz env d topic n difficulty = .ok (s, d') := by
  obtain ⟨s, hs⟩ := create_quiz_ok env d topic n difficulty
  exact ⟨s, _, hs⟩

theorem submit_answer_total (env : Env) (d : UserData) (ans : String)
    (hwf : d.wf) :
    ∃ s d', submit_answer env d ans = .ok (s, d') := by
  rcases hq : d.current_quiz with _ | q
  · exact ⟨_, d, submit_answer_no_quiz env d ans hq⟩
  · rcases hc : q.completed with _ | _
    · have hwq := hwf q hq
      have hlt : q.current_question_index < q.questions.length := by
        rcases hwq with ⟨h1, h2, h3⟩
        rcases Nat.lt_or_ge q.current_question_index q.questions.length with h | h
        · exact h
        · exfalso
          have heq : q.current_question_index = q.questions.length := le_antisymm h1 h
          have hcontr := h2.mpr heq
          rw [hc] at hcontr
          cases hcontr
      have hcq : q.questions.get? q.current_question_index =
          some (q.questions.get ⟨q.current_question_index, hlt⟩) :=
        List.get?_eq_get hlt
      obtain ⟨s, hs⟩ := submit_answer_ok env d q _ ans hq hc hcq
      exact ⟨s, _, hs⟩
    · exact ⟨_, d, submit_answer_completed env d q ans hq hc⟩

theorem skip_question_total (env : Env) (d : UserData) (hwf : d.wf) :
    ∃ s d', skip_question env d = .ok (s, d') := by
  rcases hq : d.current_quiz with _ | q
  · exact ⟨_, d, skip_question_no_quiz env d hq⟩
  · rcases hc : q.completed with _ | _
    · have hwq := hwf q hq
      have hlt : q.current_question_index < q.questions.length := by
        rcases hwq with ⟨h1, h2, h3⟩
        rcases Nat.lt_or_ge q.current_question_index q.questions.length with h | h
        · exact h
        · exfalso
          have heq : q.current_question_index = q.questions.length := le_antisymm h1 h
          have hcontr := h2.mpr heq
          rw [hc] at hcontr
          cases hcontr
      have hcq : q.questions.get? q.current_question_index =
          some (q.questions.get ⟨q.current_question_index, hlt⟩) :=
        List.get?_eq_get hlt
      obtain ⟨s, hs⟩ := skip_question_ok env d q _ hq hc hcq
      exact ⟨s, _, hs⟩
    · exact ⟨_, d, skip_question_completed env d q hq hc⟩

theorem created_quiz_len (env : Env) (topic : String) (n : Int)
    (difficulty : String) :
    (created_quiz env topic n difficulty).questions.length =
      min (max 1 (min 10 n)).toNat (catalog_lookup topic).length := by
  unfold created_quiz _generate_quiz_questions
  simp [List.length_take]

theorem created_quiz_len_pos (env : Env) (topic : String) (n : Int)
    (difficulty : String) :
    1 ≤ (created_quiz env topic n difficulty).questions.length := by
  rw [created_quiz_len]
  have h1 := clamp_toNat_pos n
  have h2 := catalog_lookup_length_pos topic
  omega

theorem create_post_wf (env : Env) (d : UserData) (topic : String)
    (n : Int) (difficulty : String) :
    (create_post env d topic n difficulty).wf := by
  intro q hq
  have hq' : q = created_quiz env topic n difficulty := by
    simpa [create_post] using hq.symm
  subst hq'
  have hlen := created_quiz_len_pos env topic n difficulty
  have hcpl : (created_quiz env topic n difficulty).completed = false := rfl
  have hidx : (created_quiz env topic n difficulty).current_question_index = 0 := rfl
  refine ⟨by omega, ?_, hlen⟩
  rw [hcpl, hidx]
  simp only [Bool.false_eq_true, false_iff]
  omega

theorem submit_transition_index (q : Quiz) (cq : QuizQuestion) (ans : String) :
    (submit_transition q cq ans).current_question_index =
      q.current_question_index + 1 := by
  unfold submit_transition
  dsimp only
  split <;> rfl

theorem skip_transition_index (q : Quiz) (cq : QuizQuestion) :
    (skip_transition q cq).current_question_index =
      q.current_question_index + 1 := by
  unfold skip_transition
  dsimp only
  split <;> rfl

theorem submit_transition_wf (q : Quiz) (cq : QuizQuestion) (ans : String)
    (hnc : q.completed = false)
    (hlt : q.current_question_index < q.questions.length) :
    (submit_transition q cq ans).wf := by
  unfold submit_transition Quiz.wf
  dsimp only
  simp only [List.length_set]
  by_cases hend : q.current_question_index + 1 ≥ q.questions.length
  · rw [if_pos hend]
    dsimp only
    simp only [List.length_set]
    refine ⟨by omega, ⟨fun _ => by omega, fun _ => by trivial⟩, by omega⟩
  · rw [if_neg hend]
    dsimp only
    simp only [List.length_set]
    refine ⟨by omega, ?_, by omega⟩
    rw [hnc]
    simp only [Bool.false_eq_true, false_iff]
    omega

theorem skip_transition_wf (q : Quiz) (cq : QuizQuestion)
    (hnc : q.completed = false)
    (hlt : q.current_question_index < q.questions.length) :
    (skip_transition q cq).wf := by
  unfold skip_transition Quiz.wf
  dsimp only
  simp only [List.length_set]
  by_cases hend : q.current_question_index + 1 ≥ q.questions.length
  · rw [if_pos hend]
    dsimp only
    simp only [List.length_set]
    refine ⟨by omega, ⟨fun _ => by omega, fun _ => by trivial⟩, by omega⟩
  · rw [if_neg hend]
    dsimp only
    simp only [List.length_set]
    refine ⟨by omega, ?_, by omega⟩
    rw [hnc]
    simp only [Bool.false_eq_true, false_iff]
    omega

theorem complete_post_current (d : UserData) (q : Quiz) :
    (complete_post d q).current_quiz = d.current_quiz := rfl

theorem submit_post_current (d : UserData) (q : Quiz) (cq : QuizQuestion)
    (ans : String) :
    (submit_post d q cq ans).current_quiz = some (submit_transition q cq ans) := by
  unfold submit_post
  dsimp only
  split <;> rfl

theorem skip_post_current (d : UserData) (q : Quiz) (cq : QuizQuestion) :
    (skip_post d q cq).current_quiz = some (skip_transition q cq) := by
  unfold skip_post
  dsimp only
  split <;> rfl

theorem submit_post_wf (d : UserData) (q : Quiz) (cq : QuizQuestion)
    (ans : String) (hnc : q.completed = false)
    (hlt : q.current_question_index < q.questions.length) :
    (submit_post d q cq ans).wf := by
  have hwt := submit_transition_wf q cq ans hnc hlt
  intro q' hq'
  rw [submit_post_current] at hq'
  cases hq'
  exact hwt

theorem skip_post_wf (d : UserData) (q : Quiz) (cq : QuizQuestion)
    (hnc : q.completed = false)
    (hlt : q.current_question_index < q.questions.length) :
    (skip_post d q cq).wf := by
  have hwt := skip_transition_wf q cq hnc hlt
  intro q' hq'
  rw [skip_post_current] at hq'
  cases hq'
  exact hwt

theorem wf_active_lt (d : UserData) (q : Quiz) (hwf : d.wf)
    (hq : d.current_quiz = some q) (hc : q.completed = false) :
    q.current_question_index < q.questions.length := by
  rcases hwf q hq with ⟨h1, h2, h3⟩
  rcases Nat.lt_or_ge q.current_question_index q.questions.length with h | h
  · exact h
  · exfalso
    have heq : q.current_question_index = q.questions.length := le_antisymm h1 h
    have hcontr := h2.mpr heq
    rw [hc] at hcontr
    cases hcontr

theorem step_preserves_wf (d d' : UserData) (hwf : d.wf)
    (hstep : Step d d') : d'.wf := by
  rcases hstep with ⟨env, _, ans, s, _, heq⟩ | ⟨env, _, s, _, heq⟩
  · rcases hq : d.current_quiz with _ | q
    · rw [submit_answer_no_quiz env d ans hq] at heq
      cases heq
      exact hwf
    · rcases hc : q.completed with _ | _
      · have hlt := wf_active_lt d q hwf hq hc
        have hcq : q.questions.get? q.current_question_index =
            some (q.questions.get ⟨q.current_question_index, hlt⟩) :=
          List.get?_eq_get hlt
        obtain ⟨s0, hs0⟩ := submit_answer_ok env d q _ ans hq hc hcq
        rw [hs0] at heq
        cases heq
        exact submit_post_wf d q _ ans hc hlt
      · rw [submit_answer_completed env d q ans hq hc] at heq
        cases heq
        exact hwf
  · rcases hq : d.current_quiz with _ | q
    · rw [skip_question_no_quiz env d hq] at heq
      cases heq
      exact hwf
    · rcases hc : q.completed with _ | _
      · have hlt := wf_active_lt d q hwf hq hc
        have hcq : q.questions.get? q.current_question_index =
            some (q.questions.get ⟨q.current_question_index, hlt⟩) :=
          List.get?_eq_get hlt
        obtain ⟨s0, hs0⟩ := skip_question_ok env d q _ hq hc hcq
        rw [hs0] at heq
        cases heq
        exact skip_post_wf d q _ hc hlt
      · rw [skip_question_completed env d q hq hc] at heq
        cases heq
        exact hwf

theorem quiz_reachable_wf (d : UserData) (h : QuizReachable d) : d.wf := by
  induction h with
  | created env d0 topic n difficulty s d' heq =>
      obtain ⟨s0, hs0⟩ := create_quiz_ok env d0 topic n difficulty
      rw [hs0] at heq
      cases heq
      exact create_post_wf env d0 topic n difficulty
  | stepped d d' hr hstep ih => exact step_preserves_wf d d' ih hstep

theorem submit_answer_index_error (env : Env) (d : UserData) (q : Quiz)
    (ans : String) (hq : d.current_quiz = some q) (hnc : q.completed = false)
    (hcq : q.questions.get? q.current_question_index = none) :
    submit_answer env d ans = .error (.exc "IndexError") := by
  unfold submit_answer py_get
  rw [hq]
  simp only [hnc, Bool.false_eq_true, if_false, hcq]

theorem skip_question_index_error (env : Env) (d : UserData) (q : Quiz)
    (hq : d.current_quiz = some q) (hnc : q.completed = false)
    (hcq : q.questions.get? q.current_question_index = none) :
    skip_question env d = .error (.exc "IndexError") := by
  unfold skip_question py_get
  rw [hq]
  simp only [hnc, Bool.false_eq_true, if_false, hcq]

theorem submit_state_env_independent (env env' : Env) (d : UserData)
    (ans : String) (s s' : String) (d1 d2 : UserData)
    (h1 : submit_answer env d ans = .ok (s, d1))
    (h2 : submit_answer env' d ans = .ok (s', d2)) : d1 = d2 := by
  rcases hq : d.current_quiz with _ | q
  · rw [submit_answer_no_quiz env d ans hq] at h1
    rw [submit_answer_no_quiz env' d ans hq] at h2
    cases h1
    cases h2
    rfl
  · rcases hc : q.completed with _ | _
    · rcases hcq : q.questions.get? q.current_question_index with _ | cq
      · rw [submit_answer_index_error env d q ans hq hc hcq] at h1
        cases h1
      · obtain ⟨s1, hs1⟩ := submit_answer_ok env d q cq ans hq hc hcq
        obtain ⟨s2, hs2⟩ := submit_answer_ok env' d q cq ans hq hc hcq
        rw [hs1] at h1
        rw [hs2] at h2
        cases h1
        cases h2
        rfl
    · rw [submit_answer_completed env d q ans hq hc] at h1
      rw [submit_answer_completed env' d q ans hq hc] at h2
      cases h1
      cases h2
      rfl

theorem skip_state_env_independent (env env' : Env) (d : UserData)
    (s s' : String) (d1 d2 : UserData)
    (h1 : skip_question env d = .ok (s, d1))
    (h2 : skip_question env' d = .ok (s', d2)) : d1 = d2 := by
  rcases hq : d.current_quiz with _ | q
  · rw [skip_question_no_quiz env d hq] at h1
    rw [skip_question_no_quiz env' d hq] at h2
    cases h1
    cases h2
    rfl
  · rcases hc : q.completed with _ | _
    · rcases hcq : q.questions.get? q.current_question_index with _ | cq
      · rw [skip_question_index_error env d q hq hc hcq] at h1
        cases h1
      · obtain ⟨s1, hs1⟩ := skip_question_ok env d q cq hq hc hcq
        obtain ⟨s2, hs2⟩ := skip_question_ok env' d q cq hq hc hcq
        rw [hs1] at h1
        rw [hs2] at h2
        cases h1
        cases h2
        rfl
    · rw [skip_question_completed env d q hq hc] at h1
      rw [skip_question_completed env' d q hq hc] at h2
      cases h1
      cases h2
      rfl

theorem get_quiz_status_state (env : Env) (d : UserData) (s : String)
    (d' : UserData) (h : get_quiz_status env d = .ok (s, d')) : d' = d := by
  unfold get_quiz_status at h
  split at h
  · split at h
    · cases h
      rfl
    · cases h
      rfl
  · split at h
    · split at h
      · cases h
      · cases h
        rfl
    · cases h
      rfl

theorem show_quiz_results_state (env : Env) (d : UserData) (s : String)
    (d' : UserData) (h : show_quiz_results env d = .ok (s, d')) : d' = d := by
  obtain ⟨s0, hs0⟩ := show_quiz_results_ok env d
  rw [hs0] at h
  cases h
  rfl

theorem step_monotonicity (d d' : UserData) (q q' : Quiz) (hwf : d.wf)
    (hstep : Step d d') (hq : d.current_quiz = some q)
    (hq' : d'.current_quiz = some q') :
    (q.completed = false → q'.current_question_index = q.current_question_index + 1 ∧
       (q'.completed = true ↔ q'.current_question_index = q'.questions.length)) ∧
    (q.completed = true → d' = d ∧ q' = q) ∧
    q.current_question_index ≤ q'.current_question_index ∧
    (q.completed = true → q'.completed = true) := by
  rcases hstep with ⟨env, _, ans, s, _, heq⟩ | ⟨env, _, s, _, heq⟩
  · rcases hc : q.completed with _ | _
    · have hlt := wf_active_lt d q hwf hq hc
      have hcq : q.questions.get? q.current_question_index =
          some (q.questions.get ⟨q.current_question_index, hlt⟩) :=
        List.get?_eq_get hlt
      obtain ⟨s0, hs0⟩ := submit_answer_ok env d q _ ans hq hc hcq
      rw [hs0] at heq
      cases heq
      rw [submit_post_current] at hq'
      cases hq'
      have hwt := submit_transition_wf q
        (q.questions.get ⟨q.current_question_index, hlt⟩) ans hc hlt
      refine ⟨fun _ => ⟨submit_transition_index q _ ans, hwt.2.1⟩, ?_, ?_, ?_⟩
      · intro hct
        cases hct
      · rw [submit_transition_index q _ ans]
        omega
      · intro hct
        cases hct
    · rw [submit_answer_completed env d q ans hq hc] at heq
      cases heq
      have hqq : q' = q := by
        rw [hq] at hq'
        cases hq'
        rfl
      subst hqq
      refine ⟨?_, ?_, ?_, ?_⟩
      · intro hf
        cases hf
      · intro _
        exact ⟨rfl, rfl⟩
      · exact le_refl _
      · intro _
        exact hc
  · rcases hc : q.completed with _ | _
    · have hlt := wf_active_lt d q hwf hq hc
      have hcq : q.questions.get? q.current_question_index =
          some (q.questions.get ⟨q.current_question_index, hlt⟩) :=
        List.get?_eq_get hlt
      obtain ⟨s0, hs0⟩ := skip_question_ok env d q _ hq hc hcq
      rw [hs0] at heq
      cases heq
      rw [skip_post_current] at hq'
      cases hq'
      have hwt := skip_transition_wf q
        (q.questions.get ⟨q.current_question_index, hlt⟩) hc hlt
      refine ⟨fun _ => ⟨skip_transition_index q _, hwt.2.1⟩, ?_, ?_, ?_⟩
      · intro hct
        cases hct
      · rw [skip_transition_index q _]
        omega
      · intro hct
        cases hct
    · rw [skip_question_completed env d q hq hc] at heq
      cases heq
      have hqq : q' = q := by
        rw [hq] at hq'
        cases hq'
        rfl
      subst hqq
      refine ⟨?_, ?_, ?_, ?_⟩
      · intro hf
        cases hf
      · intro _
        exact ⟨rfl, rfl⟩
      · exact le_refl _
      · intro _
        exact hc

theorem complete_record_id (q : Quiz) (p : Nat) (h : HistoryRecord) :
    (complete_record q p h).id = h.id := by
  unfold complete_record
  split <;> rfl

theorem complete_post_percentage (d : UserData) (q : Quiz) :
    ∀ r ∈ (complete_post d q).quiz_history, r.id = q.id →
      r.percentage = some (q.score * 100 / q.questions.length) ∧
      r.status = "completed" := by
  intro r hr hid
  simp only [complete_post, List.mem_map] at hr
  obtain ⟨h0, hh0, hrec⟩ := hr
  subst hrec
  rw [complete_record_id] at hid
  unfold complete_record
  rw [if_pos hid]
  exact ⟨rfl, rfl⟩

theorem complete_post_nonmatching (d : UserData) (q : Quiz) :
    ∀ r ∈ d.quiz_history, r.id ≠ q.id →
      r ∈ (complete_post d q).quiz_history := by
  intro r hr hid
  simp only [complete_post, List.mem_map]
  refine ⟨r, hr, ?_⟩
  unfold complete_record
  rw [if_neg hid]

theorem complete_post_ids (d : UserData) (q : Quiz) :
    (complete_post d q).quiz_history.map HistoryRecord.id =
      d.quiz_history.map HistoryRecord.id := by
  simp only [complete_post, List.map_map]
  congr 1
  funext h
  exact complete_record_id q _ h

theorem submit_post_ids (d : UserData) (q : Quiz) (cq : QuizQuestion)
    (ans : String) :
    (submit_post d q cq ans).quiz_history.map HistoryRecord.id =
      d.quiz_history.map HistoryRecord.id := by
  unfold submit_post
  dsimp only
  split
  · exact complete_post_ids _ _
  · rfl

theorem skip_post_ids (d : UserData) (q : Quiz) (cq : QuizQuestion) :
    (skip_post d q cq).quiz_history.map HistoryRecord.id =
      d.quiz_history.map HistoryRecord.id := by
  unfold skip_post
  dsimp only
  split
  · exact complete_post_ids _ _
  · rfl

theorem get_quiz_status_completed (env : Env) (d : UserData) (q : Quiz)
    (hq : d.current_quiz = some q) (hc : q.completed = true)
    (hlen : q.questions.length ≠ 0) :
    get_quiz_status env d =
      .ok ("Quiz completed! Final score: " ++ toString q.score ++ "/" ++ toString q.questions.length ++ " (" ++ toString (q.score * 100 / q.questions.length) ++ "%)", d) := by
  unfold get_quiz_status py_percentage
  rw [hq]
  simp only [hc, if_true, hlen, if_false]

theorem show_quiz_results_not_completed (env : Env) (d : UserData) (q : Quiz)
    (hq : d.current_quiz = some q) (hc : q.completed = false) :
    show_quiz_results env d =
      .ok ("Quiz is not completed yet. Finish the quiz first.", d) := by
  unfold show_quiz_results
  rw [hq]
  simp only [hc, Bool.not_false, if_true]

theorem show_quiz_results_success (env : Env) (d : UserData) (q : Quiz)
    (hq : d.current_quiz = some q) (hc : q.completed = true)
    (hlen : q.questions.length ≠ 0)
    (hr : env.has_room = true) (hp : env.has_participant = true)
    (hrpc : env.rpc = .reply true none) :
    show_quiz_results env d =
      .ok ("Here are your detailed results: " ++ toString q.score ++ "/" ++ toString q.questions.length ++ " correct (" ++ toString (q.score * 100 / q.questions.length) ++ "%)", d) := by
  unfold show_quiz_results show_quiz_results_attempt py_percentage rpc_exchange
  rw [hq]
  simp only [hc, Bool.not_true, Bool.false_eq_true, if_false, hr, hp, hrpc,
    hlen, if_true]

theorem submit_transition_score (q : Quiz) (cq : QuizQuestion) (ans : String) :
    (submit_transition q cq ans).score =
      if py_upper ans = py_upper cq.correct_answer then q.score + 1
      else q.score := by
  unfold submit_transition
  dsimp only
  split <;> rfl

theorem skip_transition_score (q : Quiz) (cq : QuizQuestion) :
    (skip_transition q cq).score = q.score := by
  unfold skip_transition
  dsimp only
  split <;> rfl

theorem submit_transition_get (q : Quiz) (cq : QuizQuestion) (ans : String)
    (hlt : q.current_question_index < q.questions.length) :
    (submit_transition q cq ans).questions.get? q.current_question_index =
      some { cq with user_answer := some (py_upper ans),
                     is_correct := some (decide (py_upper ans = py_upper cq.correct_answer)) } := by
  unfold submit_transition
  dsimp only
  split <;> exact List.get?_set_eq_of_lt _ hlt

theorem skip_transition_get (q : Quiz) (cq : QuizQuestion)
    (hlt : q.current_question_index < q.questions.length) :
    (skip_transition q cq).questions.get? q.current_question_index =
      some { cq with user_answer := some "SKIPPED", is_correct := some false } := by
  unfold skip_transition
  dsimp only
  split <;> exact List.get?_set_eq_of_lt _ hlt

theorem submit_answer_history_ids (env : Env) (d : UserData) (ans s : String)
    (d' : UserData) (h : submit_answer env d ans = .ok (s, d')) :
    d'.quiz_history.map HistoryRecord.id =
      d.quiz_history.map HistoryRecord.id := by
  rcases hq : d.current_quiz with _ | q
  · rw [submit_answer_no_quiz env d ans hq] at h
    cases h
    rfl
  · rcases hc : q.completed with _ | _
    · rcases hcq : q.questions.get? q.current_question_index with _ | cq
      · rw [submit_answer_index_error env d q ans hq hc hcq] at h
        cases h
      · obtain ⟨s1, hs1⟩ := submit_answer_ok env d q cq ans hq hc hcq
        rw [hs1] at h
        cases h
        exact submit_post_ids d q cq ans
    · rw [submit_answer_completed env d q ans hq hc] at h
      cases h
      rfl

theorem skip_question_history_ids (env : Env) (d : UserData) (s : String)
    (d' : UserData) (h : skip_question env d = .ok (s, d')) :
    d'.quiz_history.map HistoryRecord.id =
      d.quiz_history.map HistoryRecord.id := by
  rcases hq : d.current_quiz with _ | q
  · rw [skip_question_no_quiz env d hq] at h
    cases h
    rfl
  · rcases hc : q.completed with _ | _
    · rcases hcq : q.questions.get? q.current_question_index with _ | cq
      · rw [skip_question_index_error env d q hq hc hcq] at h
        cases h
      · obtain ⟨s1, hs1⟩ := skip_question_ok env d q cq hq hc hcq
        rw [hs1] at h
        cases h
        exact skip_post_ids d q cq
    · rw [skip_question_completed env d q hq hc] at h
      cases h
      rfl


/-! ## Claim theorems -/

/-- C1: for every quiz produced by `create_quiz` and every state reachable
from it by `submit_answer` / `skip_question` calls, the active quiz
satisfies `current_question_index ≤ len(questions)` (the lower bound 0 is
the `Nat` type) and `completed = true` iff the index equals the question
count; each submit/skip on a non-completed quiz advances the index by
exactly 1 and the index never decreases; on a completed quiz the state is
unchanged, so `completed` stays true. -/
theorem quiz_state_machine_invariants :
    (∀ d, QuizReachable d → ∀ q, d.current_quiz = some q →
       q.current_question_index ≤ q.questions.length ∧
       (q.completed = true ↔ q.current_question_index = q.questions.length)) ∧
    (∀ d d' q q', QuizReachable d → Step d d' →
       d.current_quiz = some q → d'.current_quiz = some q' →
       (q.completed = false →
          q'.current_question_index = q.current_question_index + 1) ∧
       q.current_question_index ≤ q'.current_question_index ∧
       (q.completed = true → d' = d ∧ q'.completed = true)) := by
  constructor
  · intro d hreach q hq
    have hwq := quiz_reachable_wf d hreach q hq
    exact ⟨hwq.1, hwq.2.1⟩
  · intro d d' q q' hreach hstep hq hq'
    have hwf := quiz_reachable_wf d hreach
    have hm := step_monotonicity d d' q q' hwf hstep hq hq'
    exact ⟨fun hc => (hm.1 hc).1, hm.2.2.1,
      fun hc => ⟨(hm.2.1 hc).1, hm.2.2.2 hc⟩⟩

/-- Witness for C1 at a concrete creation. -/
theorem quiz_state_machine_invariants_witness :
    (created_quiz env_no_room "algebra" 5 "medium").current_question_index ≤
      (created_quiz env_no_room "algebra" 5 "medium").questions.length ∧
    ((created_quiz env_no_room "algebra" 5 "medium").completed = true ↔
      (created_quiz env_no_room "algebra" 5 "medium").current_question_index =
        (created_quiz env_no_room "algebra" 5 "medium").questions.length) :=
  quiz_state_machine_invariants.1
    (create_post env_no_room d_empty "algebra" 5 "medium")
    (QuizReachable.created env_no_room d_empty "algebra" 5 "medium"
      "Created a 5-question quiz on algebra, but couldn't display it"
      (create_post env_no_room d_empty "algebra" 5 "medium") (by rfl))
    (created_quiz env_no_room "algebra" 5 "medium") rfl

/-- C2: on every environment (no room, no participant, RPC timeout,
transport failure, undecodable reply) and every well-formed session state,
each of the five tool operations returns a string result (`Except.ok`) and
never propagates a raised fault (`Except.error`). -/
theorem tools_always_return_string :
    ∀ env d, d.wf →
      (∀ topic n difficulty, ∃ s d',
         create_quiz env d topic n difficulty = .ok (s, d')) ∧
      (∀ ans, ∃ s d', submit_answer env d ans = .ok (s, d')) ∧
      (∃ s d', skip_question env d = .ok (s, d')) ∧
      (∃ s d', get_quiz_status env d = .ok (s, d')) ∧
      (∃ s d', show_quiz_results env d = .ok (s, d')) := by
  intro env d hwf
  refine ⟨fun topic n difficulty => create_quiz_total env d topic n difficulty,
          fun ans => submit_answer_total env d ans hwf,
          skip_question_total env d hwf, ?_, ?_⟩
  · obtain ⟨s, hs⟩ := get_quiz_status_ok env d hwf
    exact ⟨s, d, hs⟩
  · obtain ⟨s, hs⟩ := show_quiz_results_ok env d
    exact ⟨s, d, hs⟩

/-- Witness for C2: a submit under an RPC timeout still returns a string. -/
theorem tools_always_return_string_witness :
    ∃ s d', submit_answer env_timeout d_fractions "B" = .ok (s, d') :=
  (tools_always_return_string env_timeout d_fractions (by decide)).2.1 "B"

/-- C3 counterexample: with the fixed catalog, `create_quiz("algebra", 37)`
produces 2 questions (the whole algebra set), not the 10 the claim's
clamping example promises. -/
theorem create_quiz_clamp_counterexample :
    result_quiz_len (create_quiz env_no_room d_empty "algebra" 37 "medium") =
      some 2 ∧ (2 : Nat) ≠ 10 := by
  constructor
  · obtain ⟨s0, hs0⟩ := create_quiz_ok env_no_room d_empty "algebra" 37 "medium"
    rw [hs0]
    show some (created_quiz env_no_room "algebra" 37 "medium").questions.length =
      some 2
    rw [created_quiz_len]
    have hc : (catalog_lookup "algebra").length = 2 := by decide
    rw [hc]
    simp [min_def, max_def]
  · decide

/-- C3 amended: `create_quiz` builds the question list as the catalog entry
for the lower-cased topic (falling back to the algebra set) truncated to
the clamped count `max 1 (min 10 n)`, so the actual count is
`min (max 1 (min 10 n)) (catalog length)` and always at least 1: input 0
yields 1 question, input 37 yields the whole catalog entry (at most 2 with
this catalog, not 10), and `create_quiz("algebra", 5)` yields exactly 2
questions. -/
theorem create_quiz_clamp_truncate :
    (∀ env d topic n difficulty s d',
       create_quiz env d topic n difficulty = .ok (s, d') →
       ∃ q, d'.current_quiz = some q ∧
         q.questions = (catalog_lookup topic).take (max 1 (min 10 n)).toNat ∧
         q.questions.length =
           min (max 1 (min 10 n)).toNat (catalog_lookup topic).length ∧
         1 ≤ q.questions.length) ∧
    result_quiz_len (create_quiz env_no_room d_empty "algebra" 0 "medium") =
      some 1 ∧
    result_quiz_len (create_quiz env_no_room d_empty "geometry" 37 "medium") =
      some 1 ∧
    result_quiz_len (create_quiz env_no_room d_empty "algebra" 5 "medium") =
      some 2 := by
  refine ⟨?_, ?_, ?_, ?_⟩
  case refine_2 =>
    obtain ⟨s0, hs0⟩ := create_quiz_ok env_no_room d_empty "algebra" 0 "medium"
    rw [hs0]
    show some (created_quiz env_no_room "algebra" 0 "medium").questions.length =
      some 1
    rw [created_quiz_len]
    have hc : (catalog_lookup "algebra").length = 2 := by decide
    rw [hc]
    simp [min_def, max_def]
  case refine_3 =>
    obtain ⟨s0, hs0⟩ := create_quiz_ok env_no_room d_empty "geometry" 37 "medium"
    rw [hs0]
    show some (created_quiz env_no_room "geometry" 37 "medium").questions.length =
      some 1
    rw [created_quiz_len]
    have hc : (catalog_lookup "geometry").length = 1 := by decide
    rw [hc]
    simp [min_def, max_def]
  case refine_4 =>
    obtain ⟨s0, hs0⟩ := create_quiz_ok env_no_room d_empty "algebra" 5 "medium"
    rw [hs0]
    show some (created_quiz env_no_room "algebra" 5 "medium").questions.length =
      some 2
    rw [created_quiz_len]
    have hc : (catalog_lookup "algebra").length = 2 := by decide
    rw [hc]
    simp [min_def, max_def]
  intro env d topic n difficulty s d' h
  obtain ⟨s0, hs0⟩ := create_quiz_ok env d topic n difficulty
  rw [hs0] at h
  cases h
  refine ⟨created_quiz env topic n difficulty, rfl, rfl, ?_, ?_⟩
  · exact created_quiz_len env topic n difficulty
  · exact created_quiz_len_pos env topic n difficulty

/-- Witness for the amended C3 at a concrete creation. -/
theorem create_quiz_clamp_truncate_witness :
    ∃ q, (create_post env_no_room d_empty "fractions" 3 "easy").current_quiz =
        some q ∧
      q.questions =
        (catalog_lookup "fractions").take (max 1 (min 10 (3 : Int))).toNat ∧
      q.questions.length =
        min (max 1 (min 10 (3 : Int))).toNat (catalog_lookup "fractions").length ∧
      1 ≤ q.questions.length :=
  create_quiz_clamp_truncate.1 env_no_room d_empty "fractions" 3 "easy"
    "Created a 3-question quiz on fractions, but couldn't display it"
    (create_post env_no_room d_empty "fractions" 3 "easy") (by rfl)

/-- C4 counterexample: on a completed quiz with final score 1,
`skip_question` returns the fixed string "Quiz is already completed.",
which does not include the score (the digit 1 does not occur in it). -/
theorem skip_completed_counterexample :
    skip_question env_ok d_done = .ok ("Quiz is already completed.", d_done) ∧
    q_done.score = 1 ∧
    "Quiz is already completed.".data.contains (Char.ofNat 49) = false := by
  refine ⟨by rfl, rfl, by decide⟩

/-- C4 amended: on a completed quiz both submit_answer and skip_question
return the AlreadyCompleted rejection and leave the session state (hence
score, index, and every question's recorded answer fields) unchanged;
submit_answer's message includes the final score, while skip_question
returns the fixed message "Quiz is already completed." without the
score. -/
theorem already_completed_rejection (env : Env) (d : UserData) (q : Quiz)
    (ans : String) (hq : d.current_quiz = some q) (hc : q.completed = true) :
    submit_answer env d ans =
      .ok ("This quiz is already completed. Your score was " ++ toString q.score ++ "/" ++ toString q.questions.length ++ ".", d) ∧
    skip_question env d = .ok ("Quiz is already completed.", d) :=
  ⟨submit_answer_completed env d q ans hq hc,
   skip_question_completed env d q hq hc⟩

/-- Witness for the amended C4 on a concrete completed quiz. -/
theorem already_completed_rejection_witness :
    submit_answer env_ok d_done "A" =
      .ok ("This quiz is already completed. Your score was " ++ toString q_done.score ++ "/" ++ toString q_done.questions.length ++ ".", d_done) ∧
    skip_question env_ok d_done = .ok ("Quiz is already completed.", d_done) :=
  already_completed_rejection env_ok d_done q_done "A" rfl rfl

/-- C5: on a non-completed active quiz, submit_answer increments the score
by exactly 1 when the uppercased submitted answer equals the uppercased
correct letter ("a" and "A" both match "A") and by exactly 0 otherwise;
skip_question never changes the score and records the current question as
incorrect with the "SKIPPED" sentinel. -/
theorem scoring_rule :
    (∀ env d q ans s d', d.wf → d.current_quiz = some q →
       q.completed = false → submit_answer env d ans = .ok (s, d') →
       ∃ q' cq, d'.current_quiz = some q' ∧
         q.questions.get? q.current_question_index = some cq ∧
         q'.score = (if py_upper ans = py_upper cq.correct_answer
                     then q.score + 1 else q.score)) ∧
    (∀ env d q s d', d.wf → d.current_quiz = some q →
       q.completed = false → skip_question env d = .ok (s, d') →
       ∃ q' cq', d'.current_quiz = some q' ∧ q'.score = q.score ∧
         q'.questions.get? q.current_question_index = some cq' ∧
         cq'.is_correct = some false ∧ cq'.user_answer = some "SKIPPED") ∧
    py_upper "a" = py_upper "A" := by
  refine ⟨?_, ?_, by decide⟩
  · intro env d q ans s d' hwf hq hc heq
    have hlt := wf_active_lt d q hwf hq hc
    have hcq : q.questions.get? q.current_question_index =
        some (q.questions.get ⟨q.current_question_index, hlt⟩) :=
      List.get?_eq_get hlt
    obtain ⟨s0, hs0⟩ := submit_answer_ok env d q _ ans hq hc hcq
    rw [hs0] at heq
    cases heq
    refine ⟨submit_transition q _ ans, _, submit_post_current d q _ ans,
      hcq, submit_transition_score q _ ans⟩
  · intro env d q s d' hwf hq hc heq
    have hlt := wf_active_lt d q hwf hq hc
    have hcq : q.questions.get? q.current_question_index =
        some (q.questions.get ⟨q.current_question_index, hlt⟩) :=
      List.get?_eq_get hlt
    obtain ⟨s0, hs0⟩ := skip_question_ok env d q _ hq hc hcq
    rw [hs0] at heq
    cases heq
    exact ⟨skip_transition q _, _, skip_post_current d q _,
      skip_transition_score q _, skip_transition_get q _ hlt, rfl, rfl⟩

/-- Witness for C5: submitting the lower-case correct letter on the
one-question fractions quiz scores exactly 1. -/
theorem scoring_rule_witness :
    ∃ q' cq,
      (submit_post d_fractions q_fractions (fractions_questions.get ⟨0, by decide⟩) "b").current_quiz =
        some q' ∧
      q_fractions.questions.get? q_fractions.current_question_index = some cq ∧
      q'.score = (if py_upper "b" = py_upper cq.correct_answer
                  then q_fractions.score + 1 else q_fractions.score) :=
  scoring_rule.1 env_no_room d_fractions q_fractions "b"
    "Quiz completed! Final score: 1/1 (100%)"
    (submit_post d_fractions q_fractions (fractions_questions.get ⟨0, by decide⟩) "b")
    (by decide) rfl rfl (by rfl)

/-- C6: every percentage reported for a completed quiz — in the completion
path's history record, the status message, and the results message — is
`score * 100 / total` with truncating integer division (1/3 gives 33, not
34); the division is defined because creation enforces at least one
question on every reachable state; and `show_quiz_results` on a
non-completed quiz returns the QuizNotCompleted message without computing
a percentage. -/
theorem percentage_floor_truncation :
    (∀ d, QuizReachable d → ∀ q, d.current_quiz = some q →
       1 ≤ q.questions.length) ∧
    (∀ env d q, d.current_quiz = some q → q.completed = true →
       q.questions.length ≠ 0 →
       get_quiz_status env d =
         .ok ("Quiz completed! Final score: " ++ toString q.score ++ "/" ++ toString q.questions.length ++ " (" ++ toString (q.score * 100 / q.questions.length) ++ "%)", d)) ∧
    (∀ env d q s d', q.questions.length ≠ 0 →
       _complete_quiz env d q = .ok (s, d') →
       ∀ r ∈ d'.quiz_history, r.id = q.id →
         r.percentage = some (q.score * 100 / q.questions.length)) ∧
    (∀ env d q, d.current_quiz = some q → q.completed = true →
       q.questions.length ≠ 0 → env.has_room = true →
       env.has_participant = true → env.rpc = .reply true none →
       show_quiz_results env d =
         .ok ("Here are your detailed results: " ++ toString q.score ++ "/" ++ toString q.questions.length ++ " correct (" ++ toString (q.score * 100 / q.questions.length) ++ "%)", d)) ∧
    (py_percentage 1 3 = .ok 33 ∧ (33 : Nat) ≠ 34) ∧
    (∀ env d q, d.current_quiz = some q → q.completed = false →
       show_quiz_results env d =
         .ok ("Quiz is not completed yet. Finish the quiz first.", d)) := by
  refine ⟨?_, ?_, ?_, ?_, ⟨by decide, by decide⟩, ?_⟩
  · intro d hr q hq
    exact (quiz_reachable_wf d hr q hq).2.2
  · intro env d q hq hc hlen
    exact get_quiz_status_completed env d q hq hc hlen
  · intro env d q s d' hlen heq
    obtain ⟨s0, hs0⟩ := complete_quiz_ok env d q hlen
    rw [hs0] at heq
    cases heq
    intro r hr hid
    exact (complete_post_percentage d q r hr hid).1
  · intro env d q hq hc hlen hroom hpart hrpc
    exact show_quiz_results_success env d q hq hc hlen hroom hpart hrpc
  · intro env d q hq hc
    exact show_quiz_results_not_completed env d q hq hc

/-- Witness for C6: results on the fresh (non-completed) fractions quiz. -/
theorem percentage_floor_truncation_witness :
    show_quiz_results env_ok d_fractions =
      .ok ("Quiz is not completed yet. Finish the quiz first.", d_fractions) :=
  percentage_floor_truncation.2.2.2.2.2 env_ok d_fractions q_fractions rfl rfl

/-- C7: the state mutations of submit/skip are committed before the RPC and
do not depend on the RPC outcome (any two environments — timeout, missing
peer, transport or decode failure included — produce the same resulting
session state); on a non-completed quiz the committed state has the index
already advanced, and a status query is read-only, so it observes that
advanced state. -/
theorem local_state_commits_before_rpc :
    (∀ env env' d ans s s' d1 d2,
       submit_answer env d ans = .ok (s, d1) →
       submit_answer env' d ans = .ok (s', d2) → d1 = d2) ∧
    (∀ env env' d s s' d1 d2,
       skip_question env d = .ok (s, d1) →
       skip_question env' d = .ok (s', d2) → d1 = d2) ∧
    (∀ env d q ans s d', d.wf → d.current_quiz = some q →
       q.completed = false → submit_answer env d ans = .ok (s, d') →
       ∃ q', d'.current_quiz = some q' ∧
         q'.current_question_index = q.current_question_index + 1) ∧
    (∀ env d s d', get_quiz_status env d = .ok (s, d') → d' = d) := by
  refine ⟨submit_state_env_independent, skip_state_env_independent, ?_,
    get_quiz_status_state⟩
  intro env d q ans s d' hwf hq hc heq
  have hlt := wf_active_lt d q hwf hq hc
  obtain ⟨s0, hs0⟩ := submit_answer_ok env d q _ ans hq hc
    (List.get?_eq_get hlt)
  rw [hs0] at heq
  cases heq
  exact ⟨submit_transition q _ ans, submit_post_current d q _ ans,
    submit_transition_index q _ ans⟩

/-- Witness for C7: a submit under an RPC timeout leaves the index
advanced. -/
theorem local_state_commits_before_rpc_witness :
    ∃ q',
      (submit_post d_fractions q_fractions (fractions_questions.get ⟨0, by decide⟩) "b").current_quiz =
        some q' ∧
      q'.current_question_index = q_fractions.current_question_index + 1 :=
  local_state_commits_before_rpc.2.2.1 env_timeout d_fractions q_fractions "b"
    "Quiz completed! Final score: 1/1 (100%)"
    (submit_post d_fractions q_fractions (fractions_questions.get ⟨0, by decide⟩) "b")
    (by decide) rfl rfl (by rfl)

/-- C8: the session holds at most one active quiz (`current_quiz`, an
`Option`) plus a quiz history every operation treats as append-only:
`create_quiz` appends exactly one `in_progress` record for the new active
quiz (replacing any previous one), quiz completion rewrites in place only
the records whose id matches the completed quiz (setting status, score
summary and percentage), and submit/skip/status/results never delete or
reorder history entries (the id sequence is preserved). -/
theorem history_append_only :
    (∀ env d topic n difficulty s d',
       create_quiz env d topic n difficulty = .ok (s, d') →
       ∃ rec q, d'.quiz_history = d.quiz_history ++ [rec] ∧
         rec.status = "in_progress" ∧ d'.current_quiz = some q ∧
         q.id = rec.id) ∧
    (∀ env d q s d', q.questions.length ≠ 0 →
       _complete_quiz env d q = .ok (s, d') →
       d'.quiz_history.map HistoryRecord.id =
         d.quiz_history.map HistoryRecord.id ∧
       (∀ r ∈ d.quiz_history, r.id ≠ q.id → r ∈ d'.quiz_history) ∧
       (∀ r ∈ d'.quiz_history, r.id = q.id →
          r.status = "completed" ∧
          r.percentage = some (q.score * 100 / q.questions.length))) ∧
    (∀ env d ans s d', submit_answer env d ans = .ok (s, d') →
       d'.quiz_history.map HistoryRecord.id =
         d.quiz_history.map HistoryRecord.id) ∧
    (∀ env d s d', skip_question env d = .ok (s, d') →
       d'.quiz_history.map HistoryRecord.id =
         d.quiz_history.map HistoryRecord.id) ∧
    (∀ env d s d', get_quiz_status env d = .ok (s, d') → d' = d) ∧
    (∀ env d s d', show_quiz_results env d = .ok (s, d') → d' = d) := by
  refine ⟨?_, ?_, submit_answer_history_ids, skip_question_history_ids,
    get_quiz_status_state, show_quiz_results_state⟩
  · intro env d topic n difficulty s d' heq
    obtain ⟨s0, hs0⟩ := create_quiz_ok env d topic n difficulty
    rw [hs0] at heq
    cases heq
    exact ⟨created_record env topic difficulty,
      created_quiz env topic n difficulty, rfl, rfl, rfl, rfl⟩
  · intro env d q s d' hlen heq
    obtain ⟨s0, hs0⟩ := complete_quiz_ok env d q hlen
    rw [hs0] at heq
    cases heq
    refine ⟨complete_post_ids d q, complete_post_nonmatching d q, ?_⟩
    intro r hr hid
    exact ⟨(complete_post_percentage d q r hr hid).2,
      (complete_post_percentage d q r hr hid).1⟩

/-- Witness for C8 at a concrete creation. -/
theorem history_append_only_witness :
    ∃ rec q,
      (create_post env_no_room d_empty "algebra" 5 "medium").quiz_history =
        d_empty.quiz_history ++ [rec] ∧
      rec.status = "in_progress" ∧
      (create_post env_no_room d_empty "algebra" 5 "medium").current_quiz =
        some q ∧
      q.id = rec.id :=
  history_append_only.1 env_no_room d_empty "algebra" 5 "medium"
    "Created a 5-question quiz on algebra, but couldn't display it"
    (create_post env_no_room d_empty "algebra" 5 "medium") (by rfl)

/-- C9: submit_answer compares the entire uppercased submitted string for
exact equality with the correct letter, records the full uppercased string
as `user_answer` (not a normalized letter), and marks the question
incorrect (scoring 0) whenever the whole string differs from the letter —
in particular "A) x = 5" against correct answer "A" is recorded as
"A) X = 5" and scores 0. -/
theorem full_string_uppercase_comparison :
    (∀ env d q cq ans s d', d.current_quiz = some q → q.completed = false →
       q.questions.get? q.current_question_index = some cq →
       submit_answer env d ans = .ok (s, d') →
       ∃ q' cq', d'.current_quiz = some q' ∧
         q'.questions.get? q.current_question_index = some cq' ∧
         cq'.user_answer = some (py_upper ans) ∧
         cq'.is_correct =
           some (decide (py_upper ans = py_upper cq.correct_answer)) ∧
         (py_upper ans ≠ py_upper cq.correct_answer → q'.score = q.score)) ∧
    (∃ s d', submit_answer env_no_room d_alg "A) x = 5" = .ok (s, d') ∧
       ∃ q' cq', d'.current_quiz = some q' ∧
         q'.questions.get? 0 = some cq' ∧
         cq'.user_answer = some "A) X = 5" ∧ cq'.is_correct = some false ∧
         q'.score = 0) := by
  constructor
  · intro env d q cq ans s d' hq hc hcq heq
    have hlt : q.current_question_index < q.questions.length := by
      by_contra hge
      rw [List.get?_eq_none.mpr (le_of_not_lt hge)] at hcq
      cases hcq
    obtain ⟨s0, hs0⟩ := submit_answer_ok env d q cq ans hq hc hcq
    rw [hs0] at heq
    cases heq
    refine ⟨submit_transition q cq ans, _, submit_post_current d q cq ans,
      submit_transition_get q cq ans hlt, rfl, rfl, ?_⟩
    intro hne
    rw [submit_transition_score q cq ans, if_neg hne]
  · exact ⟨"Moving to next question, but couldn't display it",
      submit_post d_alg q_alg (algebra_questions.get ⟨0, by decide⟩) "A) x = 5",
      by rfl,
      submit_transition q_alg (algebra_questions.get ⟨0, by decide⟩) "A) x = 5",
      { (algebra_questions.get ⟨0, by decide⟩) with
          user_answer := some "A) X = 5", is_correct := some false },
      by decide, by decide, rfl, rfl, by decide⟩

/-- Witness for C9: an answer that merely mentions the correct option is
scored 0 and stored as the full uppercased string. -/
theorem full_string_uppercase_comparison_witness :
    ∃ q' cq',
      (submit_post d_alg q_alg (algebra_questions.get ⟨0, by decide⟩) "option a").current_quiz =
        some q' ∧
      q'.questions.get? q_alg.current_question_index = some cq' ∧
      cq'.user_answer = some (py_upper "option a") ∧
      cq'.is_correct =
        some (decide (py_upper "option a" =
          py_upper (algebra_questions.get ⟨0, by decide⟩).correct_answer)) ∧
      (py_upper "option a" ≠
          py_upper (algebra_questions.get ⟨0, by decide⟩).correct_answer →
        q'.score = q_alg.score) :=
  full_string_uppercase_comparison.1 env_no_room d_alg q_alg
    (algebra_questions.get ⟨0, by decide⟩) "option a"
    "Moving to next question, but couldn't display it"
    (submit_post d_alg q_alg (algebra_questions.get ⟨0, by decide⟩) "option a")
    rfl rfl (by decide) (by rfl)

/-- C10: the question generator ignores its difficulty argument entirely:
for any topic and count, any two difficulty strings yield identical
question lists, and the quizzes created by create_quiz with different
difficulties have identical question content (text, options, correct
answers) — difficulty affects only the stored label and message wording. -/
theorem difficulty_ignored_by_generator :
    (∀ topic n d1 d2,
       _generate_quiz_questions topic n d1 =
         _generate_quiz_questions topic n d2) ∧
    (∀ env d topic n d1 d2,
       result_quiz_content (create_quiz env d topic n d1) =
         result_quiz_content (create_quiz env d topic n d2)) := by
  constructor
  · intro topic n d1 d2
    rfl
  · intro env d topic n d1 d2
    obtain ⟨s1, hs1⟩ := create_quiz_ok env d topic n d1
    obtain ⟨s2, hs2⟩ := create_quiz_ok env d topic n d2
    rw [hs1, hs2]
    rfl
